import Mathlib

/-!
Shallow embedding of the submodule health-check engine of `rgit`
(`src/submodule.rs`, with configuration from `src/config.rs` and error
variants from `src/error.rs`).

Effectful calls into libgit2 and the filesystem are modelled by recording
the result each call would return as data in an observation record
(`RepoObs` for an opened submodule repository, `SubEntry` for one
submodule entry of the root repository's manifest).  Fallible Rust
functions returning `Result<T>` become Lean functions returning
`Except GErr T`; the `?` operator becomes monadic bind.  Rust's
`HashMap<String, SubmoduleStatus>` is modelled as an association list
with insert-overwrite semantics (`hmInsert`), which is exactly the
observable behaviour of `HashMap::insert`; iteration order of the model
is insertion order (the claims proved below do not depend on iteration
order, or are order-independent aggregates).
-/

namespace Rgit

/-- An opaque git/filesystem error (the payload of `git2::Error` /
`std::io::Error` as far as the health-check logic observes it). -/
structure GErr where
  msg : String
deriving Repr, DecidableEq

/-- Severity levels, from `enum IssueSeverity` in `src/submodule.rs`. -/
inductive IssueSeverity
  | Info
  | Warning
  | Error
deriving Repr, DecidableEq

/-- Issue taxonomy, from `enum SubmoduleIssue` in `src/submodule.rs`. -/
inductive SubmoduleIssue
  | NotInitialized
  | UncommittedChanges
  | DetachedHead
  | AheadOfRemote (n : Nat)
  | BehindRemote (n : Nat)
  | MergeConflicts
  | EmptyDirectory
  | DirectoryNotEmpty
  | InvalidUrl (url : String)
  | MissingRemote
  | NetworkError (msg : String)
deriving Repr, DecidableEq

namespace SubmoduleIssue

/-- `SubmoduleIssue::description` from `src/submodule.rs`. -/
def description : SubmoduleIssue → String
  | NotInitialized => "Not initialized"
  | UncommittedChanges => "Has uncommitted changes"
  | DetachedHead => "Detached HEAD state"
  | AheadOfRemote n => toString n ++ " commits ahead of remote"
  | BehindRemote n => toString n ++ " commits behind remote"
  | MergeConflicts => "Has merge conflicts"
  | EmptyDirectory => "Directory is empty"
  | DirectoryNotEmpty => "Directory exists but is not a git repository"
  | InvalidUrl url => "Invalid URL: " ++ url
  | MissingRemote => "No remote configured"
  | NetworkError msg => "Network error: " ++ msg

/-- `SubmoduleIssue::severity` from `src/submodule.rs`. -/
def severity : SubmoduleIssue → IssueSeverity
  | NotInitialized => IssueSeverity.Warning
  | UncommittedChanges => IssueSeverity.Warning
  | DetachedHead => IssueSeverity.Info
  | AheadOfRemote _ => IssueSeverity.Info
  | BehindRemote _ => IssueSeverity.Warning
  | MergeConflicts => IssueSeverity.Error
  | EmptyDirectory => IssueSeverity.Warning
  | DirectoryNotEmpty => IssueSeverity.Error
  | InvalidUrl _ => IssueSeverity.Error
  | MissingRemote => IssueSeverity.Warning
  | NetworkError _ => IssueSeverity.Warning

end SubmoduleIssue

/-- `git2::RepositoryState`, as matched by `has_merge_conflicts`. -/
inductive RepoState
  | Clean
  | Merge
  | Revert
  | RevertSequence
  | CherryPick
  | CherryPickSequence
  | Bisect
  | Rebase
  | RebaseInteractive
  | RebaseMerge
  | ApplyMailbox
  | ApplyMailboxOrRebase
deriving Repr, DecidableEq

/-- Observation of `repo.head()`: whether the reference is a branch
(`head.is_branch()`), its target oid (`head.target()`, oids modelled as
`Nat`), and its shorthand name (`head.shorthand()`). -/
structure HeadObs where
  is_branch : Bool
  target : Option Nat
  shorthand : Option String

/-- Observation of the upstream branch reference:
`upstream.get().target()`. -/
structure UpstreamObs where
  target : Option Nat

/-- Observation of a local branch: the result of `branch.upstream()`. -/
structure BranchObs where
  upstream : Except GErr UpstreamObs

/-- Observations of an opened submodule repository: the result each
libgit2 call made by the classifier would return on it. -/
structure RepoObs where
  /-- Emptiness of `repo.statuses(None)` (`Except` because the call is
  fallible): `.ok true` means the status list is empty. -/
  statuses_is_empty : Except GErr Bool
  /-- Result of `repo.head()`. -/
  head : Except GErr HeadObs
  /-- Result of `repo.find_branch(name, BranchType::Local)`. -/
  find_branch : String → Except GErr BranchObs
  /-- Result of `repo.graph_ahead_behind(local, upstream)`. -/
  graph_ahead_behind : Nat → Nat → Except GErr (Nat × Nat)
  /-- Result of `repo.state()` (infallible in git2). -/
  state : RepoState

/-- One submodule entry of the root repository's manifest together with
the observations the health check would make on it:
`submodule.name() / path() / url() / branch()`, the result of
`submodule.open()`, and the filesystem facts consulted by
`check_submodule_status` (`path.exists()`, `path.is_dir()`, and the
entry count `std::fs::read_dir(path)` would report). -/
structure SubEntry where
  name : Option String
  path : String
  url : Option String
  branch : Option String
  open_result : Except GErr RepoObs
  path_exists : Bool
  path_is_dir : Bool
  read_dir_count : Except GErr Nat

/-- `struct SubmoduleStatus` from `src/submodule.rs`. -/
structure SubmoduleStatus where
  name : String := ""
  path : String := ""
  url : Option String := none
  branch : Option String := none
  initialized : Bool := false
  issues : List SubmoduleIssue := []
deriving Repr, DecidableEq

/-- `struct SubmoduleHealth` from `src/submodule.rs`; the `HashMap` is
modelled as an association list with insert-overwrite semantics. -/
structure SubmoduleHealth where
  submodules : List (String × SubmoduleStatus) := []
deriving Repr, DecidableEq

/-- `HashMap::insert` semantics on the association-list model: replace
the value when the key is present, append otherwise. -/
def hmInsert (m : List (String × SubmoduleStatus)) (k : String)
    (v : SubmoduleStatus) : List (String × SubmoduleStatus) :=
  if m.any (fun p => p.1 == k) then
    m.map (fun p => if p.1 == k then (k, v) else p)
  else
    m ++ [(k, v)]

namespace SubmoduleHealth

/-- `SubmoduleHealth::add_submodule`: `self.submodules.insert(name, status)`. -/
def add_submodule (h : SubmoduleHealth) (name : String)
    (status : SubmoduleStatus) : SubmoduleHealth :=
  { h with submodules := hmInsert h.submodules name status }

/-- `SubmoduleHealth::is_healthy`:
`self.submodules.values().all(|status| status.issues.is_empty())`. -/
def is_healthy (h : SubmoduleHealth) : Bool :=
  h.submodules.all (fun p => p.2.issues.isEmpty)

/-- `SubmoduleHealth::total_issues`:
`self.submodules.values().map(|status| status.issues.len()).sum()`. -/
def total_issues (h : SubmoduleHealth) : Nat :=
  (h.submodules.map (fun p => p.2.issues.length)).sum

/-- `SubmoduleHealth::unhealthy_submodules`. -/
def unhealthy_submodules (h : SubmoduleHealth) : List String :=
  (h.submodules.filter (fun p => !p.2.issues.isEmpty)).map (fun p => p.1)

end SubmoduleHealth

/-- `SubmoduleManager::has_uncommitted_changes`:
`let statuses = repo.statuses(None)?; Ok(!statuses.is_empty())`. -/
def has_uncommitted_changes (repo : RepoObs) : Except GErr Bool := do
  let e ← repo.statuses_is_empty
  pure (!e)

/-- `SubmoduleManager::is_detached_head`: `Ok(!head.is_branch())` when
`repo.head()` succeeds, `Ok(true)` when it fails. -/
def is_detached_head (repo : RepoObs) : Except GErr Bool :=
  match repo.head with
  | Except.ok h => Except.ok (!h.is_branch)
  | Except.error _ => Except.ok true

/-- `SubmoduleManager::get_ahead_behind_count`: propagate a `head()`
failure or a missing HEAD target as `Err`; otherwise, if the local
branch lookup, its upstream, and the upstream target all resolve, return
`graph_ahead_behind(local, upstream)`, and in every fall-through case
return `Ok((0, 0))`. -/
def get_ahead_behind_count (sub_repo : RepoObs) : Except GErr (Nat × Nat) := do
  let head ← sub_repo.head
  let local_oid ← match head.target with
    | some o => pure o
    | none => Except.error (GErr.mk "No target for HEAD")
  match sub_repo.find_branch (head.shorthand.getD "HEAD") with
  | Except.ok branch =>
    match branch.upstream with
    | Except.ok upstream =>
      match upstream.target with
      | some upstream_oid => sub_repo.graph_ahead_behind local_oid upstream_oid
      | none => pure (0, 0)
    | Except.error _ => pure (0, 0)
  | Except.error _ => pure (0, 0)

/-- `SubmoduleManager::has_merge_conflicts`: true exactly for the
`Merge`, `Revert`, `CherryPick`, `Bisect` and the three `Rebase*`
repository states. -/
def has_merge_conflicts (repo : RepoObs) : Except GErr Bool :=
  match repo.state with
  | RepoState.Merge => Except.ok true
  | RepoState.Revert => Except.ok true
  | RepoState.CherryPick => Except.ok true
  | RepoState.Bisect => Except.ok true
  | RepoState.Rebase => Except.ok true
  | RepoState.RebaseInteractive => Except.ok true
  | RepoState.RebaseMerge => Except.ok true
  | _ => Except.ok false

/-- `SubmoduleManager::is_directory_empty` applied to the entry's path:
`Ok(false)` when the path is not a directory, otherwise the entry count
of `read_dir` compared with zero (fallible). -/
def is_directory_empty (e : SubEntry) : Except GErr Bool :=
  if !e.path_is_dir then Except.ok false
  else do
    let n ← e.read_dir_count
    pure (n == 0)

/-- `SubmoduleManager::is_valid_url`: recognised scheme prefix, or the
`user@host:path` form (`url.contains("@") && url.contains(":")`). -/
def is_valid_url (url : String) : Bool :=
  url.startsWith "http://" ||
  url.startsWith "https://" ||
  url.startsWith "git://" ||
  url.startsWith "ssh://" ||
  (url.contains '@' && url.contains ':')

/-- `SubmoduleManager::check_submodule_repo`: collect, in order,
`UncommittedChanges`, `DetachedHead`, `AheadOfRemote`/`BehindRemote`
(only when `get_ahead_behind_count` returns `Ok` and the respective
count is positive; an `Err` is silently dropped by the `if let Ok`),
and `MergeConflicts`. -/
def check_submodule_repo (sub_repo : RepoObs) :
    Except GErr (List SubmoduleIssue) := do
  let uncommitted ← has_uncommitted_changes sub_repo
  let issues0 := if uncommitted then [SubmoduleIssue.UncommittedChanges] else []
  let detached ← is_detached_head sub_repo
  let issues1 := issues0 ++ (if detached then [SubmoduleIssue.DetachedHead] else [])
  let issues2 := issues1 ++
    (match get_ahead_behind_count sub_repo with
     | Except.ok (ahead, behind) =>
       (if ahead > 0 then [SubmoduleIssue.AheadOfRemote ahead] else []) ++
       (if behind > 0 then [SubmoduleIssue.BehindRemote behind] else [])
     | Except.error _ => [])
  let conflicts ← has_merge_conflicts sub_repo
  pure (issues2 ++ (if conflicts then [SubmoduleIssue.MergeConflicts] else []))

/-- `SubmoduleManager::check_submodule_status`: record identity fields;
on `submodule.open()` success set `initialized` and run
`check_submodule_repo`, on failure push `NotInitialized`; then, when the
path exists and the node is not initialized, push `EmptyDirectory` or
`DirectoryNotEmpty` according to `is_directory_empty`; finally push
`InvalidUrl` when a declared URL fails `is_valid_url`. -/
def check_submodule_status (e : SubEntry) : Except GErr SubmoduleStatus := do
  let name := e.name.getD "unknown"
  let (initialized, issues0) ←
    match e.open_result with
    | Except.ok sub_repo => do
      let repo_issues ← check_submodule_repo sub_repo
      pure (true, repo_issues)
    | Except.error _ =>
      pure (false, [SubmoduleIssue.NotInitialized])
  let issues1 ←
    if e.path_exists && !initialized then do
      let empty ← is_directory_empty e
      if empty then pure (issues0 ++ [SubmoduleIssue.EmptyDirectory])
      else pure (issues0 ++ [SubmoduleIssue.DirectoryNotEmpty])
    else pure issues0
  let issues2 :=
    match e.url with
    | some url =>
      if !is_valid_url url then issues1 ++ [SubmoduleIssue.InvalidUrl url]
      else issues1
    | none => issues1
  pure { name := name, path := e.path, url := e.url, branch := e.branch,
         initialized := initialized, issues := issues2 }

/-- The loop body of `SubmoduleManager::check_health`: for each
submodule entry, compute its status and `add_submodule` it under
`submodule.name().unwrap_or("unknown")`. -/
def check_health_go (health : SubmoduleHealth) :
    List SubEntry → Except GErr SubmoduleHealth
  | [] => Except.ok health
  | e :: rest => do
    let status ← check_submodule_status e
    check_health_go (health.add_submodule (e.name.getD "unknown") status) rest

/-- `SubmoduleManager::check_health`: iterate over the root repository's
direct submodule entries (the manifest), starting from the default
(empty) report.  Note the source performs no recursive descent here. -/
def check_health (entries : List SubEntry) : Except GErr SubmoduleHealth :=
  check_health_go {} entries

/-- `struct SubmoduleConfig` from `src/config.rs`. -/
structure SubmoduleConfig where
  auto_init : Bool
  recursive : Bool
  health_check : Bool
  auto_stash : Bool
  parallel : Bool
  max_jobs : Nat
deriving Repr, DecidableEq

/-- `impl Default for SubmoduleConfig` from `src/config.rs`; `max_jobs`
is `num_cpus::get().min(8)`, so the machine's CPU count is a
parameter. -/
def SubmoduleConfig.defaultConfig (num_cpus : Nat) : SubmoduleConfig :=
  { auto_init := true
    recursive := true
    health_check := true
    auto_stash := false
    parallel := true
    max_jobs := min num_cpus 8 }

/-- The slice of `struct Config` (`src/config.rs`) the health check
reads: the submodule section, `ui.interactive`, and whether stdin is a
tty (consulted by `Config::is_interactive`). -/
structure Config where
  submodules : SubmoduleConfig
  ui_interactive : Bool
  stdin_is_atty : Bool
deriving Repr, DecidableEq

/-- `Config::is_interactive`: `self.ui.interactive && atty::is(Stdin)`. -/
def Config.is_interactive (c : Config) : Bool :=
  c.ui_interactive && c.stdin_is_atty

/-- The `RgitError` variants reachable from `fix_issue`
(`src/error.rs`). -/
inductive RgitError
  | SubmoduleError (msg : String)
  | SubmoduleUncommittedChanges (name : String)
  | SubmoduleOperationFailed (msg : String)
deriving Repr, DecidableEq

/-- The primitive repository-mutating operations `fix_issue` can invoke
(`init_submodule`, `stash_submodule_changes`,
`remove_empty_directory`). -/
inductive FixAction
  | InitSubmodule (name : String)
  | StashChanges (name : String)
  | RemoveEmptyDirectory (name : String)
deriving Repr, DecidableEq

/-- `SubmoduleManager::fix_issue`: dispatch on the issue kind.
`NotInitialized` initializes; `UncommittedChanges` stashes only under
`config.submodules.auto_stash` and otherwise returns
`RgitError::SubmoduleUncommittedChanges`; `EmptyDirectory` removes the
empty directory then initializes; `DirectoryNotEmpty` and
`InvalidUrl` return `RgitError::SubmoduleOperationFailed` with their
specific messages; every remaining kind falls to the catch-all arm
returning `SubmoduleOperationFailed("Cannot auto-fix: ...")`.  The
mutation the successful arms perform is represented by the ordered list
of primitive actions they invoke. -/
def fix_issue (cfg : Config) (name : String) (issue : SubmoduleIssue) :
    Except RgitError (List FixAction) :=
  match issue with
  | SubmoduleIssue.NotInitialized =>
    Except.ok [FixAction.InitSubmodule name]
  | SubmoduleIssue.UncommittedChanges =>
    if cfg.submodules.auto_stash then
      Except.ok [FixAction.StashChanges name]
    else
      Except.error (RgitError.SubmoduleUncommittedChanges name)
  | SubmoduleIssue.EmptyDirectory =>
    Except.ok [FixAction.RemoveEmptyDirectory name, FixAction.InitSubmodule name]
  | SubmoduleIssue.DirectoryNotEmpty =>
    Except.error (RgitError.SubmoduleOperationFailed
      ("Directory " ++ name ++ " is not empty and not a git repository"))
  | SubmoduleIssue.InvalidUrl _ =>
    Except.error (RgitError.SubmoduleOperationFailed
      "Invalid URL requires manual configuration")
  | other =>
    Except.error (RgitError.SubmoduleOperationFailed
      ("Cannot auto-fix: " ++ other.description))

/-- `SubmoduleManager::auto_fix_issues`: iterate over the report's
entries, skip healthy ones, and attempt `fix_issue` for every issue of
each unhealthy entry; each attempt's outcome is only logged (a failure
never aborts the pass), so the pass is summarised by its trace of
attempts.  The function takes the report by immutable reference and
returns `Ok(())` — it never modifies or rebuilds the report. -/
def auto_fix_issues (cfg : Config) (health : SubmoduleHealth) :
    List (String × SubmoduleIssue × Except RgitError (List FixAction)) :=
  health.submodules.foldl
    (fun acc p =>
      if p.2.issues.isEmpty then acc
      else acc ++ p.2.issues.map (fun issue => (p.1, issue, fix_issue cfg p.1 issue)))
    []

/-- The inputs of one run of
`SubmoduleManager::interactive_health_check`: the configuration, the
`verbose` flag of the core, the submodule entries the first
`check_health` scan observes, the entries a re-scan after the auto-fix
pass observes (the filesystem may have been changed by the fixes), and
the result of `prompt.select()` when the prompt is reached. -/
structure GateEnv where
  config : Config
  verbose : Bool
  entries1 : List SubEntry
  entries2 : List SubEntry
  choice : Except GErr Nat

/-- `SubmoduleManager::interactive_health_check`: return `Ok(true)` at
once when `config.submodules.health_check` is off; scan; `Ok(true)`
when healthy; otherwise display the summary and, in non-interactive
mode, return `Ok(false)`; in interactive mode dispatch on the selected
option: 0 continue anyway, 1 auto-fix then re-scan and proceed only if
the fresh scan is healthy, 2 show details and return `Ok(false)`,
anything else abort with `Ok(false)`.  Display calls only print and are
omitted. -/
def interactive_health_check (env : GateEnv) : Except GErr Bool := do
  if !env.config.submodules.health_check then
    pure true
  else do
    let health ← check_health env.entries1
    if health.is_healthy then
      pure true
    else if !env.config.is_interactive then
      pure false
    else do
      let sel ← env.choice
      match sel with
      | 0 => pure true
      | 1 => do
        let _trace := auto_fix_issues env.config health
        let new_health ← check_health env.entries2
        if new_health.is_healthy then pure true else pure false
      | 2 => pure false
      | _ => pure false

/-! Concrete fixtures used by counterexamples and witnesses. -/

/-- Observations of a fully healthy opened submodule repository: clean
status list, HEAD on a branch, no local-branch lookup result (so the
ahead/behind computation falls back to `(0, 0)`), clean state. -/
def repoObsHealthy : RepoObs :=
  { statuses_is_empty := Except.ok true
    head := Except.ok { is_branch := true, target := some 1, shorthand := some "main" }
    find_branch := fun _ => Except.error (GErr.mk "branch not found")
    graph_ahead_behind := fun _ _ => Except.error (GErr.mk "not reached")
    state := RepoState.Clean }

/-- Observations of an opened repository on which reading the status
list fails, so `check_submodule_status` propagates the error. -/
def repoObsStatusErr : RepoObs :=
  { statuses_is_empty := Except.error (GErr.mk "io error")
    head := Except.ok { is_branch := true, target := some 1, shorthand := some "main" }
    find_branch := fun _ => Except.error (GErr.mk "branch not found")
    graph_ahead_behind := fun _ _ => Except.error (GErr.mk "not reached")
    state := RepoState.Clean }

/-- An uninitialized submodule entry whose directory does not exist and
which declares no URL. -/
def entryUninitBare : SubEntry :=
  { name := some "u"
    path := "vendor/u"
    url := none
    branch := none
    open_result := Except.error (GErr.mk "could not find repository")
    path_exists := false
    path_is_dir := false
    read_dir_count := Except.ok 0 }

/-- An uninitialized submodule entry whose directory exists and is
empty. -/
def entryUninitEmptyDir : SubEntry :=
  { name := some "sub"
    path := "libs/sub"
    url := none
    branch := none
    open_result := Except.error (GErr.mk "could not find repository")
    path_exists := true
    path_is_dir := true
    read_dir_count := Except.ok 0 }

/-- A healthy, initialized submodule entry. -/
def entryHealthy : SubEntry :=
  { name := some "ok"
    path := "libs/ok"
    url := none
    branch := none
    open_result := Except.ok repoObsHealthy
    path_exists := true
    path_is_dir := true
    read_dir_count := Except.ok 3 }

/-- An entry whose classification fails (status read error), so any
scan containing it returns `Err`. -/
def entryScanErr : SubEntry :=
  { name := some "bad"
    path := "libs/bad"
    url := none
    branch := none
    open_result := Except.ok repoObsStatusErr
    path_exists := true
    path_is_dir := true
    read_dir_count := Except.ok 3 }

/-- A configuration with defaults (4 CPUs) running non-interactively. -/
def cfgNonInteractive : Config :=
  { submodules := SubmoduleConfig.defaultConfig 4
    ui_interactive := false
    stdin_is_atty := false }

/-- A configuration with defaults (4 CPUs) running interactively. -/
def cfgInteractive : Config :=
  { submodules := SubmoduleConfig.defaultConfig 4
    ui_interactive := true
    stdin_is_atty := true }

/-- An interactive configuration whose `submodules.health_check` flag
is switched off. -/
def cfgHealthOff : Config :=
  { submodules := { SubmoduleConfig.defaultConfig 4 with health_check := false }
    ui_interactive := true
    stdin_is_atty := true }

/-- The status `check_submodule_status` computes for `entryUninitBare`. -/
def statUninitBare : SubmoduleStatus :=
  { name := "u"
    path := "vendor/u"
    url := none
    branch := none
    initialized := false
    issues := [SubmoduleIssue.NotInitialized] }

/-- The report `check_health` computes for `[entryUninitBare]`. -/
def healthUninitBare : SubmoduleHealth :=
  { submodules := [("u", statUninitBare)] }

/-- A self-referential manifest entry: its path is `"."`, the root
repository's own directory, so descending into it would re-enter the
repository being walked.  `check_health` never descends, so the entry
is classified like any other; opened, it shows a healthy repository. -/
def entrySelfRef : SubEntry :=
  { name := some "self"
    path := "."
    url := none
    branch := none
    open_result := Except.ok repoObsHealthy
    path_exists := true
    path_is_dir := true
    read_dir_count := Except.ok 3 }

/-- The status `check_submodule_status` computes for `entrySelfRef`. -/
def statSelfRef : SubmoduleStatus :=
  { name := "self"
    path := "."
    url := none
    branch := none
    initialized := true
    issues := [] }

/-- The report `check_health` computes for `[entrySelfRef]`. -/
def healthSelfRef : SubmoduleHealth :=
  { submodules := [("self", statSelfRef)] }

/-- An entry with no valid UTF-8 name (`submodule.name()` returns
`None`), uninitialized. -/
def entryUnknownA : SubEntry :=
  { name := none
    path := "a"
    url := none
    branch := none
    open_result := Except.error (GErr.mk "could not find repository")
    path_exists := false
    path_is_dir := false
    read_dir_count := Except.ok 0 }

/-- A second entry with no valid UTF-8 name, healthy and initialized. -/
def entryUnknownB : SubEntry :=
  { name := none
    path := "b"
    url := none
    branch := none
    open_result := Except.ok repoObsHealthy
    path_exists := true
    path_is_dir := true
    read_dir_count := Except.ok 2 }

/-- The status `check_submodule_status` computes for `entryUnknownB`. -/
def statUnknownB : SubmoduleStatus :=
  { name := "unknown"
    path := "b"
    url := none
    branch := none
    initialized := true
    issues := [] }

/-- The report `check_health` computes for
`[entryUnknownA, entryUnknownB]`: a single entry under the shared key
`"unknown"`, holding only the second node's status. -/
def healthUnknownB : SubmoduleHealth :=
  { submodules := [("unknown", statUnknownB)] }

/-- The status `check_submodule_status` computes for `entryHealthy`. -/
def statHealthyOk : SubmoduleStatus :=
  { name := "ok"
    path := "libs/ok"
    url := none
    branch := none
    initialized := true
    issues := [] }

/-- The report `check_health` computes for
`[entryUninitBare, entryHealthy]`. -/
def healthTwoDistinct : SubmoduleHealth :=
  { submodules := [("u", statUninitBare), ("ok", statHealthyOk)] }

/-- A local branch with no configured upstream: `branch.upstream()`
fails. -/
def branchNoUpstream : BranchObs :=
  { upstream := Except.error (GErr.mk "no upstream") }

/-- Observations of a repository whose branch has no upstream
configured. -/
def repoObsNoUpstream : RepoObs :=
  { statuses_is_empty := Except.ok true
    head := Except.ok { is_branch := true, target := some 1, shorthand := some "main" }
    find_branch := fun _ => Except.ok branchNoUpstream
    graph_ahead_behind := fun _ _ => Except.error (GErr.mk "not reached")
    state := RepoState.Clean }

/-- Observations of a clean repository that is 2 commits ahead and 3
commits behind its upstream. -/
def repoObsAheadBehind : RepoObs :=
  { statuses_is_empty := Except.ok true
    head := Except.ok { is_branch := true, target := some 1, shorthand := some "main" }
    find_branch := fun _ => Except.ok { upstream := Except.ok { target := some 2 } }
    graph_ahead_behind := fun _ _ => Except.ok (2, 3)
    state := RepoState.Clean }

/-- Membership in a conditional singleton list. -/
theorem mem_if_singleton {α : Type} (x y : α) (c : Prop) [Decidable c] :
    (x ∈ (if c then [y] else [])) ↔ (c ∧ x = y) := by
  by_cases h : c
  · simp [h]
  · simp [h]

/-- The URL-validity tail of `check_submodule_status`: the `InvalidUrl`
issue appended when a declared URL fails `is_valid_url`, and nothing
otherwise (mirrors the final `if let Some(ref url)` block of the
source). -/
def url_issue_suffix (e : SubEntry) : List SubmoduleIssue :=
  match e.url with
  | some url =>
    if !is_valid_url url then [SubmoduleIssue.InvalidUrl url] else []
  | none => []

/-- The status `check_submodule_status` computes for
`entryUninitEmptyDir`. -/
def statUninitEmptyDir : SubmoduleStatus :=
  { name := "sub"
    path := "libs/sub"
    url := none
    branch := none
    initialized := false
    issues := [SubmoduleIssue.NotInitialized, SubmoduleIssue.EmptyDirectory] }

/-! ## Generic monad-reduction helper lemmas for `Except` -/

theorem except_ok_bind {ε α β : Type} (a : α) (f : α → Except ε β) :
    (Except.ok a >>= f : Except ε β) = f a := rfl

theorem except_error_bind {ε α β : Type} (e : ε) (f : α → Except ε β) :
    ((Except.error e : Except ε α) >>= f) = Except.error e := rfl

theorem except_pure_eq {ε α : Type} (a : α) :
    (pure a : Except ε α) = Except.ok a := rfl

/-! ## Helper lemmas about the `HashMap` insert model -/

theorem hmInsert_length_le (m : List (String × SubmoduleStatus)) (k : String)
    (v : SubmoduleStatus) : (hmInsert m k v).length ≤ m.length + 1 := by
  unfold hmInsert
  split
  · simp
  · simp

theorem hmInsert_fst_mem (m : List (String × SubmoduleStatus)) (k : String)
    (v : SubmoduleStatus) :
    ∀ p ∈ hmInsert m k v, p.1 ∈ m.map Prod.fst ∨ p.1 = k := by
  unfold hmInsert
  split
  · intro p hp
    rcases List.mem_map.mp hp with ⟨q, hq, hpq⟩
    by_cases hk : q.1 == k
    · right
      rw [if_pos hk] at hpq
      rw [← hpq]
    · left
      rw [if_neg hk] at hpq
      exact hpq ▸ List.mem_map.mpr ⟨q, hq, rfl⟩
  · intro p hp
    rcases List.mem_append.mp hp with h | h
    · exact Or.inl (List.mem_map.mpr ⟨p, h, rfl⟩)
    · simp at h
      simp [h]

theorem hmInsert_not_mem (m : List (String × SubmoduleStatus)) (k : String)
    (v : SubmoduleStatus) (hk : k ∉ m.map Prod.fst) :
    hmInsert m k v = m ++ [(k, v)] := by
  unfold hmInsert
  rw [if_neg]
  simp only [List.any_eq_true, not_exists, not_and]
  intro p hp
  intro hbeq
  exact hk (List.mem_map.mpr ⟨p, hp, by simpa using hbeq⟩)

/-! ## Helper lemmas about the walk loop -/

theorem check_health_go_flat :
    ∀ (entries : List SubEntry) (acc h : SubmoduleHealth),
      check_health_go acc entries = Except.ok h →
      h.submodules.length ≤ acc.submodules.length + entries.length ∧
      ∀ p ∈ h.submodules,
        p.1 ∈ acc.submodules.map Prod.fst ++
          entries.map (fun e => e.name.getD "unknown") := by
  intro entries
  induction entries with
  | nil =>
    intro acc h hok
    simp only [check_health_go, Except.ok.injEq] at hok
    subst hok
    constructor
    · simp
    · intro p hp
      simp only [List.map_nil, List.append_nil]
      exact List.mem_map.mpr ⟨p, hp, rfl⟩
  | cons e rest ih =>
    intro acc h hok
    simp only [check_health_go] at hok
    cases hcs : check_submodule_status e with
    | error ge =>
      rw [hcs, except_error_bind] at hok
      cases hok
    | ok st =>
      rw [hcs, except_ok_bind] at hok
      rcases ih (acc.add_submodule (e.name.getD "unknown") st) h hok with ⟨hlen, hmem⟩
      constructor
      · have hlen2 := hmInsert_length_le acc.submodules (e.name.getD "unknown") st
        simp only [SubmoduleHealth.add_submodule] at hlen
        simp only [List.length_cons]
        omega
      · intro p hp
        have := hmem p hp
        simp only [SubmoduleHealth.add_submodule, List.mem_append, List.map_cons,
          List.mem_cons] at this ⊢
        rcases this with hin | hin
        · rcases List.mem_map.mp hin with ⟨q, hq, hpq⟩
          rcases hmInsert_fst_mem acc.submodules (e.name.getD "unknown") st q hq with
            h1 | h1
          · exact Or.inl (hpq ▸ h1)
          · exact Or.inr (Or.inl (hpq ▸ h1))
        · exact Or.inr (Or.inr hin)

theorem check_health_go_keys :
    ∀ (entries : List SubEntry) (acc h : SubmoduleHealth),
      (acc.submodules.map Prod.fst ++
        entries.map (fun e => e.name.getD "unknown")).Nodup →
      check_health_go acc entries = Except.ok h →
      h.submodules.map Prod.fst =
        acc.submodules.map Prod.fst ++
          entries.map (fun e => e.name.getD "unknown") := by
  intro entries
  induction entries with
  | nil =>
    intro acc h _ hok
    simp only [check_health_go, Except.ok.injEq] at hok
    subst hok
    simp
  | cons e rest ih =>
    intro acc h hnd hok
    simp only [check_health_go] at hok
    cases hcs : check_submodule_status e with
    | error ge =>
      rw [hcs, except_error_bind] at hok
      cases hok
    | ok st =>
      rw [hcs, except_ok_bind] at hok
      have hknotin : (e.name.getD "unknown") ∉ acc.submodules.map Prod.fst := by
        simp only [List.map_cons, List.nodup_append, List.nodup_cons,
          List.disjoint_cons_right] at hnd
        intro hcontra
        exact hnd.2.2.1 hcontra
      have hins := hmInsert_not_mem acc.submodules (e.name.getD "unknown") st hknotin
      have hrearrange :
          ((acc.add_submodule (e.name.getD "unknown") st).submodules.map Prod.fst ++
            rest.map (fun x => x.name.getD "unknown")) =
          (acc.submodules.map Prod.fst ++
            (e :: rest).map (fun x => x.name.getD "unknown")) := by
        simp only [SubmoduleHealth.add_submodule, hins, List.map_append,
          List.map_cons, List.map_nil, List.append_assoc, List.singleton_append]
      have := ih (acc.add_submodule (e.name.getD "unknown") st) h
        (by rw [hrearrange]; exact hnd) hok
      rw [this, hrearrange]

/-! ## Theorems -/

/-- C8: the severity of every issue is a deterministic total function
of its kind alone (`SubmoduleIssue.severity` is a total function, and
the parameterised kinds map independently of their payload), with
`NotInitialized`, `UncommittedChanges`, `BehindRemote`,
`EmptyDirectory`, `MissingRemote` mapping to `Warning`; `DetachedHead`,
`AheadOfRemote` to `Info`; `MergeConflicts`, `DirectoryNotEmpty`
(directory-not-empty-not-a-repo) and `InvalidUrl` to `Error`. -/
theorem severity_is_total_kind_table :
    SubmoduleIssue.NotInitialized.severity = IssueSeverity.Warning ∧
    SubmoduleIssue.UncommittedChanges.severity = IssueSeverity.Warning ∧
    (∀ n, (SubmoduleIssue.BehindRemote n).severity = IssueSeverity.Warning) ∧
    SubmoduleIssue.EmptyDirectory.severity = IssueSeverity.Warning ∧
    SubmoduleIssue.MissingRemote.severity = IssueSeverity.Warning ∧
    SubmoduleIssue.DetachedHead.severity = IssueSeverity.Info ∧
    (∀ n, (SubmoduleIssue.AheadOfRemote n).severity = IssueSeverity.Info) ∧
    SubmoduleIssue.MergeConflicts.severity = IssueSeverity.Error ∧
    SubmoduleIssue.DirectoryNotEmpty.severity = IssueSeverity.Error ∧
    (∀ u, (SubmoduleIssue.InvalidUrl u).severity = IssueSeverity.Error) :=
  ⟨rfl, rfl, fun _ => rfl, rfl, rfl, rfl, fun _ => rfl, rfl, rfl, fun _ => rfl⟩

/-- C7: `is_healthy()` holds iff every contained status has an empty
issue list; `total_issues()` is the sum over all statuses of the length
of their issue lists; and scanning a tree with zero submodule entries
yields the empty report, which is healthy with zero total issues. -/
theorem health_report_predicates :
    (∀ h : SubmoduleHealth,
      h.is_healthy = true ↔ ∀ p ∈ h.submodules, p.2.issues = []) ∧
    (∀ h : SubmoduleHealth,
      h.total_issues = (h.submodules.map (fun p => p.2.issues.length)).sum) ∧
    check_health [] = Except.ok {} ∧
    SubmoduleHealth.is_healthy {} = true ∧
    SubmoduleHealth.total_issues {} = 0 := by
  refine ⟨?_, fun h => rfl, rfl, rfl, rfl⟩
  intro h
  simp [SubmoduleHealth.is_healthy, List.all_eq_true, List.isEmpty_iff]

/-- Witness for C7 at the concrete empty report. -/
theorem health_report_predicates_witness :
    SubmoduleHealth.is_healthy {} = true :=
  (health_report_predicates.1 {}).mpr (by intro p hp; cases hp)

/-- C10: when `config.submodules.health_check` is false the gate
returns `Ok(true)` immediately for every environment — in particular
for environments whose first scan would fail, showing no scan is
performed — and the flag defaults to `true`
(`impl Default for SubmoduleConfig`). -/
theorem health_check_flag_gate :
    (∀ env : GateEnv, env.config.submodules.health_check = false →
      interactive_health_check env = Except.ok true) ∧
    (∀ num_cpus, (SubmoduleConfig.defaultConfig num_cpus).health_check = true) := by
  refine ⟨?_, fun _ => rfl⟩
  intro env hoff
  simp [interactive_health_check, hoff]
  rfl

/-- Witness for C10: a concrete environment with the flag off whose
first scan would fail still proceeds, and the default flag is on. -/
theorem health_check_flag_gate_witness :
    interactive_health_check
      { config := cfgHealthOff, verbose := false, entries1 := [entryScanErr],
        entries2 := [], choice := Except.error (GErr.mk "no prompt") } =
      Except.ok true ∧
    (SubmoduleConfig.defaultConfig 4).health_check = true :=
  ⟨health_check_flag_gate.1 _ rfl, health_check_flag_gate.2 4⟩

/-- C3: in non-interactive mode with the health check enabled (the
source has no override flag on this path), the gate returns
`Ok(is_healthy())` of the scanned report: `Blocked` (false) iff the
report is unhealthy, `Proceed` (true) iff it is healthy. -/
theorem noninteractive_gate_iff_healthy :
    ∀ (env : GateEnv) (h : SubmoduleHealth),
      env.config.submodules.health_check = true →
      env.config.is_interactive = false →
      check_health env.entries1 = Except.ok h →
      interactive_health_check env = Except.ok h.is_healthy := by
  intro env h hflag hni hscan
  by_cases hh : h.is_healthy
  · simp [interactive_health_check, hflag, hscan, except_ok_bind, hh,
      except_pure_eq]
  · simp [interactive_health_check, hflag, hscan, except_ok_bind, hh, hni,
      except_pure_eq]

/-- Witness for C3: an unhealthy scan (one uninitialized entry) in
non-interactive mode is blocked. -/
theorem noninteractive_gate_iff_healthy_witness :
    interactive_health_check
      { config := cfgNonInteractive, verbose := false,
        entries1 := [entryUninitBare], entries2 := [],
        choice := Except.error (GErr.mk "no prompt") } =
      Except.ok false :=
  noninteractive_gate_iff_healthy _ healthUninitBare rfl rfl rfl

/-- C4: `fix_issue` attempts a remediation only for
`{NotInitialized, EmptyDirectory, UncommittedChanges}` (the last only
under `auto_stash`); `UncommittedChanges` without `auto_stash` yields
the dedicated `SubmoduleUncommittedChanges` error, and every other kind
yields a `SubmoduleOperationFailed` error naming the issue. -/
theorem fix_issue_allowlist :
    ∀ (cfg : Config) (name : String),
      (∀ issue : SubmoduleIssue,
        (∃ acts, fix_issue cfg name issue = Except.ok acts) ↔
          (issue = SubmoduleIssue.NotInitialized ∨
           issue = SubmoduleIssue.EmptyDirectory ∨
           (issue = SubmoduleIssue.UncommittedChanges ∧
            cfg.submodules.auto_stash = true))) ∧
      (cfg.submodules.auto_stash = false →
        fix_issue cfg name SubmoduleIssue.UncommittedChanges =
          Except.error (RgitError.SubmoduleUncommittedChanges name)) ∧
      (fix_issue cfg name SubmoduleIssue.DirectoryNotEmpty =
        Except.error (RgitError.SubmoduleOperationFailed
          ("Directory " ++ name ++ " is not empty and not a git repository"))) ∧
      (∀ url, fix_issue cfg name (SubmoduleIssue.InvalidUrl url) =
        Except.error (RgitError.SubmoduleOperationFailed
          "Invalid URL requires manual configuration")) ∧
      (∀ issue : SubmoduleIssue,
        (issue = SubmoduleIssue.DetachedHead ∨
         issue = SubmoduleIssue.MergeConflicts ∨
         issue = SubmoduleIssue.MissingRemote ∨
         (∃ n, issue = SubmoduleIssue.AheadOfRemote n) ∨
         (∃ n, issue = SubmoduleIssue.BehindRemote n) ∨
         (∃ m, issue = SubmoduleIssue.NetworkError m)) →
        fix_issue cfg name issue =
          Except.error (RgitError.SubmoduleOperationFailed
            ("Cannot auto-fix: " ++ issue.description))) := by
  intro cfg name
  refine ⟨?_, ?_, rfl, fun _ => rfl, ?_⟩
  · intro issue
    cases issue <;> simp [fix_issue]
    by_cases hs : cfg.submodules.auto_stash <;> simp [hs]
  · intro hs
    simp [fix_issue, hs]
  · rintro issue (rfl | rfl | rfl | ⟨n, rfl⟩ | ⟨n, rfl⟩ | ⟨m, rfl⟩) <;> rfl

/-- Witness for C4 at a concrete configuration without `auto_stash`:
stashing is refused with the dedicated error and `DetachedHead` falls
to the catch-all arm. -/
theorem fix_issue_allowlist_witness :
    fix_issue cfgNonInteractive "s" SubmoduleIssue.UncommittedChanges =
      Except.error (RgitError.SubmoduleUncommittedChanges "s") ∧
    fix_issue cfgNonInteractive "s" SubmoduleIssue.DetachedHead =
      Except.error (RgitError.SubmoduleOperationFailed
        ("Cannot auto-fix: " ++ SubmoduleIssue.DetachedHead.description)) :=
  ⟨(fix_issue_allowlist cfgNonInteractive "s").2.1 rfl,
   (fix_issue_allowlist cfgNonInteractive "s").2.2.2.2
     SubmoduleIssue.DetachedHead (Or.inl rfl)⟩

/-- C1 counterexample: an uninitialized entry whose directory exists
and is empty is classified with TWO issues, `NotInitialized` followed
by `EmptyDirectory` — classification does not stop after
`NotInitialized`, refuting the claim at this input. -/
theorem uninit_single_issue_cex :
    (check_submodule_status entryUninitEmptyDir).map SubmoduleStatus.issues =
      Except.ok [SubmoduleIssue.NotInitialized, SubmoduleIssue.EmptyDirectory] ∧
    ¬ (check_submodule_status entryUninitEmptyDir).map SubmoduleStatus.issues =
      Except.ok [SubmoduleIssue.NotInitialized] := by
  constructor
  · rfl
  · intro hcontra
    rw [show (check_submodule_status entryUninitEmptyDir).map SubmoduleStatus.issues =
        Except.ok [SubmoduleIssue.NotInitialized, SubmoduleIssue.EmptyDirectory]
        from rfl] at hcontra
    simp at hcontra

/-- C1 amended: an uninitialized node's status carries
`NotInitialized` as its FIRST issue, but not necessarily its only one:
when the node's path exists, an `EmptyDirectory` or
`DirectoryNotEmpty` issue is additionally emitted (according to
whether the directory is empty), and when the declared URL fails the
validity check an `InvalidUrl` issue is additionally emitted; no kinds
outside `{NotInitialized, EmptyDirectory, DirectoryNotEmpty,
InvalidUrl}` appear, and the issue list is exactly `[NotInitialized]`
when the path does not exist and no URL is declared. -/
theorem uninit_issue_shape :
    ∀ (e : SubEntry) (err : GErr) (s : SubmoduleStatus),
      e.open_result = Except.error err →
      check_submodule_status e = Except.ok s →
      s.initialized = false ∧
      s.issues.head? = some SubmoduleIssue.NotInitialized ∧
      (∀ i ∈ s.issues,
        i = SubmoduleIssue.NotInitialized ∨ i = SubmoduleIssue.EmptyDirectory ∨
        i = SubmoduleIssue.DirectoryNotEmpty ∨
        ∃ u, i = SubmoduleIssue.InvalidUrl u) ∧
      (e.path_exists = false → e.url = none →
        s.issues = [SubmoduleIssue.NotInitialized]) ∧
      (e.path_exists = true → ∃ b, is_directory_empty e = Except.ok b ∧
        s.issues = SubmoduleIssue.NotInitialized ::
          ((if b then [SubmoduleIssue.EmptyDirectory]
            else [SubmoduleIssue.DirectoryNotEmpty]) ++
            url_issue_suffix e)) ∧
      (e.path_exists = false →
        s.issues = SubmoduleIssue.NotInitialized :: url_issue_suffix e) ∧
      (∀ u, e.url = some u → is_valid_url u = false →
        SubmoduleIssue.InvalidUrl u ∈ s.issues) := by
  intro e err s hopen hok
  unfold check_submodule_status at hok
  rw [hopen] at hok
  simp only [except_ok_bind, except_error_bind, except_pure_eq] at hok
  by_cases hpe : e.path_exists
  · simp only [hpe, Bool.not_false, Bool.and_true, Bool.true_and, if_true] at hok
    cases hde : is_directory_empty e with
    | error ge =>
      rw [hde] at hok
      simp only [except_error_bind] at hok
      cases hok
    | ok b =>
      rw [hde] at hok
      simp only [except_ok_bind] at hok
      cases hu : e.url with
      | none =>
        cases b
        · simp [hu] at hok
          subst hok
          refine ⟨rfl, rfl, ?_, ?_, ?_, ?_, ?_⟩
          · intro i hi
            fin_cases hi <;> simp
          · intro h1 _
            simp [h1] at hpe
          · intro _
            exact ⟨false, rfl, by simp [url_issue_suffix, hu]⟩
          · intro h1
            simp [h1] at hpe
          · intro u hc _
            simp at hc
        · simp [hu] at hok
          subst hok
          refine ⟨rfl, rfl, ?_, ?_, ?_, ?_, ?_⟩
          · intro i hi
            fin_cases hi <;> simp
          · intro h1 _
            simp [h1] at hpe
          · intro _
            exact ⟨true, rfl, by simp [url_issue_suffix, hu]⟩
          · intro h1
            simp [h1] at hpe
          · intro u hc _
            simp at hc
      | some url =>
        by_cases hv : is_valid_url url
        · cases b
          · simp [hu, hv] at hok
            subst hok
            refine ⟨rfl, rfl, ?_, ?_, ?_, ?_, ?_⟩
            · intro i hi
              fin_cases hi <;> simp
            · intro h1 _
              simp [h1] at hpe
            · intro _
              exact ⟨false, rfl, by simp [url_issue_suffix, hu, hv]⟩
            · intro h1
              simp [h1] at hpe
            · intro u hequ hval
              injection hequ with h5
              subst h5
              rw [hv] at hval
              simp at hval
          · simp [hu, hv] at hok
            subst hok
            refine ⟨rfl, rfl, ?_, ?_, ?_, ?_, ?_⟩
            · intro i hi
              fin_cases hi <;> simp
            · intro h1 _
              simp [h1] at hpe
            · intro _
              exact ⟨true, rfl, by simp [url_issue_suffix, hu, hv]⟩
            · intro h1
              simp [h1] at hpe
            · intro u hequ hval
              injection hequ with h5
              subst h5
              rw [hv] at hval
              simp at hval
        · cases b
          · simp [hu, hv] at hok
            subst hok
            refine ⟨rfl, rfl, ?_, ?_, ?_, ?_, ?_⟩
            · intro i hi
              fin_cases hi <;> simp
            · intro h1 _
              simp [h1] at hpe
            · intro _
              exact ⟨false, rfl, by simp [url_issue_suffix, hu, hv]⟩
            · intro h1
              simp [h1] at hpe
            · intro u hequ hval
              injection hequ with h5
              subst h5
              simp
          · simp [hu, hv] at hok
            subst hok
            refine ⟨rfl, rfl, ?_, ?_, ?_, ?_, ?_⟩
            · intro i hi
              fin_cases hi <;> simp
            · intro h1 _
              simp [h1] at hpe
            · intro _
              exact ⟨true, rfl, by simp [url_issue_suffix, hu, hv]⟩
            · intro h1
              simp [h1] at hpe
            · intro u hequ hval
              injection hequ with h5
              subst h5
              simp
  · simp only [hpe, Bool.not_false, Bool.and_true, Bool.false_and, if_false,
      except_pure_eq, except_ok_bind] at hok
    cases hu : e.url with
    | none =>
      simp [hu] at hok
      subst hok
      refine ⟨rfl, rfl, ?_, fun _ _ => rfl, ?_, ?_, ?_⟩
      · intro i hi
        fin_cases hi <;> simp
      · intro h1
        exact absurd h1 hpe
      · intro _
        simp [url_issue_suffix, hu]
      · intro u hc _
        simp at hc
    | some url =>
      by_cases hv : is_valid_url url
      · simp [hu, hv] at hok
        subst hok
        refine ⟨rfl, rfl, ?_, ?_, ?_, ?_, ?_⟩
        · intro i hi
          fin_cases hi <;> simp
        · intro _ h2
          simp at h2
        · intro h1
          exact absurd h1 hpe
        · intro _
          simp [url_issue_suffix, hu, hv]
        · intro u hequ hval
          injection hequ with h5
          subst h5
          rw [hv] at hval
          simp at hval
      · simp [hu, hv] at hok
        subst hok
        refine ⟨rfl, rfl, ?_, ?_, ?_, ?_, ?_⟩
        · intro i hi
          fin_cases hi <;> simp
        · intro _ h2
          simp at h2
        · intro h1
          exact absurd h1 hpe
        · intro _
          simp [url_issue_suffix, hu, hv]
        · intro u hequ hval
          injection hequ with h5
          subst h5
          simp

/-- Witness for C1's amended theorem: at `entryUninitBare` (path
absent, no URL) the issue list is exactly `NotInitialized` followed by
the (empty) URL suffix, and at `entryUninitEmptyDir` (existing empty
directory) the `EmptyDirectory` issue is additionally emitted. -/
theorem uninit_issue_shape_witness :
    statUninitBare.initialized = false ∧
    statUninitBare.issues =
      SubmoduleIssue.NotInitialized :: url_issue_suffix entryUninitBare ∧
    (∃ b, is_directory_empty entryUninitEmptyDir = Except.ok b ∧
      statUninitEmptyDir.issues = SubmoduleIssue.NotInitialized ::
        ((if b then [SubmoduleIssue.EmptyDirectory]
          else [SubmoduleIssue.DirectoryNotEmpty]) ++
          url_issue_suffix entryUninitEmptyDir)) :=
  ⟨(uninit_issue_shape entryUninitBare (GErr.mk "could not find repository")
      statUninitBare rfl rfl).1,
   (uninit_issue_shape entryUninitBare (GErr.mk "could not find repository")
      statUninitBare rfl rfl).2.2.2.2.2.1 rfl,
   (uninit_issue_shape entryUninitEmptyDir
      (GErr.mk "could not find repository")
      statUninitEmptyDir rfl rfl).2.2.2.2.1 rfl⟩

/-- C2 counterexample: a manifest whose single entry is
self-referential (its path is the root repository's own directory)
scans to a report with NO issue at all — in particular no
Warning-severity issue is recorded for the cyclic node, refuting the
claim's second half.  (The walk does terminate: `check_health` never
recurses.) -/
theorem cycle_no_warning_cex :
    check_health [entrySelfRef] = Except.ok healthSelfRef ∧
    healthSelfRef.submodules.all
      (fun p => p.2.issues.all
        (fun i => !(i.severity == IssueSeverity.Warning))) = true ∧
    healthSelfRef.total_issues = 0 :=
  ⟨rfl, rfl, rfl⟩

/-- C2 amended: `check_health` performs no recursive descent at all —
it iterates only the root's direct manifest entries, so the walk over
any manifest (self-referential entries included) terminates with at
most one report entry per manifest entry, every report key naming a
direct entry; no cycle-related Warning is recorded (no visited set
exists in the source). -/
theorem walk_is_flat :
    ∀ (entries : List SubEntry) (h : SubmoduleHealth),
      check_health entries = Except.ok h →
      h.submodules.length ≤ entries.length ∧
      ∀ p ∈ h.submodules,
        p.1 ∈ entries.map (fun e => e.name.getD "unknown") := by
  intro entries h hok
  rcases check_health_go_flat entries {} h hok with ⟨hlen, hmem⟩
  constructor
  · simpa using hlen
  · intro p hp
    simpa using hmem p hp

/-- Witness for C2's amended theorem on the self-referential
manifest. -/
theorem walk_is_flat_witness :
    healthSelfRef.submodules.length ≤ [entrySelfRef].length :=
  (walk_is_flat [entrySelfRef] healthSelfRef rfl).1

/-- C5 counterexample: two distinct discovered nodes (different paths)
whose `name()` is not valid UTF-8 both map to the key `"unknown"`;
`HashMap::insert` silently overwrites, so the report has a single
entry and the first node's `NotInitialized` issue is dropped
(`total_issues` is 0), refuting uniqueness and no-silent-drop at this
input — and the key is the submodule name, not a parent-qualified
path. -/
theorem report_overwrite_cex :
    check_health [entryUnknownA, entryUnknownB] = Except.ok healthUnknownB ∧
    healthUnknownB.submodules.length = 1 ∧
    healthUnknownB.total_issues = 0 ∧
    entryUnknownA.path ≠ entryUnknownB.path := by
  refine ⟨rfl, rfl, rfl, by decide⟩

/-- C5 amended: the report is keyed by submodule name
(`name().unwrap_or("unknown")`), not parent-qualified path; insertion
overwrites an existing key, so distinct nodes sharing a key collapse
to one entry.  When the top-level names are pairwise distinct, the
report's keys are exactly the entries' names in order and no status is
dropped (one report entry per discovered node). -/
theorem report_keys_faithful :
    ∀ (entries : List SubEntry) (h : SubmoduleHealth),
      (entries.map (fun e => e.name.getD "unknown")).Nodup →
      check_health entries = Except.ok h →
      h.submodules.map Prod.fst =
        entries.map (fun e => e.name.getD "unknown") ∧
      h.submodules.length = entries.length := by
  intro entries h hnd hok
  have hkeys := check_health_go_keys entries {} h (by simpa using hnd) hok
  simp only [List.nil_append] at hkeys
  refine ⟨by simpa using hkeys, ?_⟩
  have := congrArg List.length hkeys
  simpa using this

/-- Witness for C5's amended theorem on two distinct names. -/
theorem report_keys_faithful_witness :
    healthTwoDistinct.submodules.map Prod.fst =
      [entryUninitBare, entryHealthy].map (fun e => e.name.getD "unknown") ∧
    healthTwoDistinct.submodules.length = 2 :=
  report_keys_faithful [entryUninitBare, entryHealthy] healthTwoDistinct
    (by decide) rfl

/-- C6: among the issues of an initialized node, `AheadOfRemote(n)`
appears iff the computed counts are `Ok((n, _))` with `n` positive, and
`BehindRemote(m)` iff they are `Ok((_, m))` with `m` positive —
independently, so both can co-occur — and `MissingRemote` is never
emitted; moreover, when the branch has no upstream configured
(`branch.upstream()` fails) the count computation falls back to
`Ok((0, 0))`, so neither issue is emitted. -/
theorem ahead_behind_emission :
    (∀ (sub_repo : RepoObs) (issues : List SubmoduleIssue),
      check_submodule_repo sub_repo = Except.ok issues →
      (∀ n, SubmoduleIssue.AheadOfRemote n ∈ issues ↔
        (∃ b, get_ahead_behind_count sub_repo = Except.ok (n, b)) ∧ 0 < n) ∧
      (∀ m, SubmoduleIssue.BehindRemote m ∈ issues ↔
        (∃ a, get_ahead_behind_count sub_repo = Except.ok (a, m)) ∧ 0 < m) ∧
      SubmoduleIssue.MissingRemote ∉ issues) ∧
    (∀ (sub_repo : RepoObs) (hd : HeadObs) (t : Nat) (br : BranchObs)
        (err : GErr),
      sub_repo.head = Except.ok hd →
      hd.target = some t →
      sub_repo.find_branch (hd.shorthand.getD "HEAD") = Except.ok br →
      br.upstream = Except.error err →
      get_ahead_behind_count sub_repo = Except.ok (0, 0)) := by
  constructor
  · intro sub_repo issues hok
    unfold check_submodule_repo at hok
    cases h1 : has_uncommitted_changes sub_repo with
    | error g =>
      rw [h1] at hok
      simp only [except_error_bind] at hok
      cases hok
    | ok u =>
      rw [h1] at hok
      simp only [except_ok_bind] at hok
      cases h2 : is_detached_head sub_repo with
      | error g =>
        rw [h2] at hok
        simp only [except_error_bind] at hok
        cases hok
      | ok d =>
        rw [h2] at hok
        simp only [except_ok_bind] at hok
        cases h3 : has_merge_conflicts sub_repo with
        | error g =>
          rw [h3] at hok
          simp only [except_error_bind] at hok
          cases hok
        | ok c =>
          rw [h3] at hok
          simp only [except_ok_bind, except_pure_eq] at hok
          injection hok with hL
          subst hL
          refine ⟨?_, ?_, ?_⟩
          · intro n
            cases h4 : get_ahead_behind_count sub_repo with
            | ok ab =>
              obtain ⟨a, b⟩ := ab
              simp [h4, List.mem_append, mem_if_singleton]
              omega
            | error g =>
              simp [h4, List.mem_append, mem_if_singleton]
          · intro m
            cases h4 : get_ahead_behind_count sub_repo with
            | ok ab =>
              obtain ⟨a, b⟩ := ab
              simp [h4, List.mem_append, mem_if_singleton]
              omega
            | error g =>
              simp [h4, List.mem_append, mem_if_singleton]
          · cases h4 : get_ahead_behind_count sub_repo with
            | ok ab =>
              obtain ⟨a, b⟩ := ab
              intro hmem
              simp [h4, List.mem_append, mem_if_singleton] at hmem
            | error g =>
              intro hmem
              simp [h4, List.mem_append, mem_if_singleton] at hmem
  · intro sub_repo hd t br err hhead htarget hbr hup
    unfold get_ahead_behind_count
    rw [hhead]
    simp only [except_ok_bind]
    rw [htarget]
    simp only [except_ok_bind, except_pure_eq]
    rw [hbr]
    simp only [hup]

/-- Witness for C6: a repository that is ahead and behind at once
carries both issues, and a repository without an upstream computes
`(0, 0)`. -/
theorem ahead_behind_emission_witness :
    SubmoduleIssue.AheadOfRemote 2 ∈
      [SubmoduleIssue.AheadOfRemote 2, SubmoduleIssue.BehindRemote 3] ∧
    SubmoduleIssue.BehindRemote 3 ∈
      [SubmoduleIssue.AheadOfRemote 2, SubmoduleIssue.BehindRemote 3] ∧
    get_ahead_behind_count repoObsNoUpstream = Except.ok (0, 0) :=
  ⟨((ahead_behind_emission.1 repoObsAheadBehind _ rfl).1 2).mpr
      ⟨⟨3, rfl⟩, by decide⟩,
   ((ahead_behind_emission.1 repoObsAheadBehind _ rfl).2.1 3).mpr
      ⟨⟨2, rfl⟩, by decide⟩,
   ahead_behind_emission.2 repoObsNoUpstream
     { is_branch := true, target := some 1, shorthand := some "main" }
     1 branchNoUpstream (GErr.mk "no upstream") rfl rfl rfl rfl⟩

/-- C9: after the `AutoFix` choice (selection 1) the gate runs the fix
pass over the ORIGINAL report and then exactly one fresh re-scan, and
proceeds iff the re-scanned report is healthy — the decision is
`is_healthy` of the second scan alone, never of the original report
(the fix pass, `auto_fix_issues`, takes the report by immutable
reference and returns `Ok(())`, so the original `SubmoduleHealth` is
unchanged; in the embedding it is a pure function of the report). -/
theorem autofix_rescan_gate :
    ∀ (env : GateEnv) (h1 h2 : SubmoduleHealth),
      env.config.submodules.health_check = true →
      env.config.is_interactive = true →
      env.choice = Except.ok 1 →
      check_health env.entries1 = Except.ok h1 →
      h1.is_healthy = false →
      check_health env.entries2 = Except.ok h2 →
      interactive_health_check env = Except.ok h2.is_healthy := by
  intro env h1 h2 hflag hint hch hs1 hh1 hs2
  simp [interactive_health_check, hflag, hs1, hh1, hint, hch, hs2,
    except_ok_bind, except_pure_eq]
  by_cases hh2 : h2.is_healthy <;> simp [hh2]

/-- Witness for C9: unhealthy first scan, fix, healthy re-scan —
proceed. -/
theorem autofix_rescan_gate_witness :
    interactive_health_check
      { config := cfgInteractive, verbose := false,
        entries1 := [entryUninitBare], entries2 := [],
        choice := Except.ok 1 } = Except.ok true :=
  autofix_rescan_gate _ healthUninitBare {} rfl rfl rfl rfl rfl rfl

end Rgit
